import Mathlib

/-!
Verification of the Konami-code input-sequence detector of
`src/assets/js/main.js` (class `KonamiCode`).

The detector is shallowly embedded: the class fields become a state record,
each method becomes a pure function from state (and the event's data) to a
new state together with the observable effects of the call.  The `setTimeout`
that clears `hasPlayedThisSession` 10 000 ms after playback is modelled by a
`pendingClear` deadline stored in the state, fired explicitly by `fireTimers`
before an event that arrives at a given wall-clock time is processed (this is
exactly the single-threaded JS event-loop ordering).  Audio playback itself
is fire-and-forget: the only state the source keeps about it is whether the
`Audio` object was constructed (`this.audio` non-null, field `audio` below);
a rejected `play()` promise is observed only by a logging callback and never
read back, so it does not appear in the state.
-/

namespace Konami

/-- `this.sequence` (main.js lines 343-347): the arrow-key code sequence. -/
def sequence : List String :=
  ["ArrowUp", "ArrowUp", "ArrowDown", "ArrowDown",
   "ArrowLeft", "ArrowRight", "ArrowLeft", "ArrowRight",
   "KeyB", "KeyA"]

/-- `this.wasdSequence` (main.js lines 350-354): the WASD alternative. -/
def wasdSequence : List String :=
  ["KeyW", "KeyW", "KeyS", "KeyS",
   "KeyA", "KeyD", "KeyA", "KeyD",
   "KeyB", "KeyA"]

/-- `this.controllerSequence` (main.js lines 357-361). -/
def controllerSequence : List String :=
  ["up", "up", "down", "down",
   "left", "right", "left", "right",
   "b", "a"]

/-- The mutable fields of `KonamiCode` that the matcher and the playback gate
touch.  `currentSequence` is the single shared input buffer (line 363),
`hasPlayedThisSession` the suppression flag (line 366), `audio` records
whether `preloadAudio` managed to construct the `Audio` object (lines
393-402: on success `this.audio` is non-null), and `pendingClear` is the
deadline of the pending `setTimeout` from line 582, `none` when no clear is
scheduled. -/
structure KState where
  currentSequence : List String
  hasPlayedThisSession : Bool
  audio : Bool
  pendingClear : Option Nat
  deriving DecidableEq, Repr

/-- The state right after the constructor (lines 363-366): empty buffer,
flag off, no timer; `audioOk` says whether `preloadAudio` succeeded. -/
def initKonami (audioOk : Bool) : KState :=
  { currentSequence := [], hasPlayedThisSession := false,
    audio := audioOk, pendingClear := none }

/-- `playKonamiAudio` (lines 570-589) at wall-clock time `t`.  Returns the
new state and whether `audio.play()` was invoked.  The body runs only when
the flag is down (line 571) and the `Audio` object exists (line 574); in
that case `play()` is called (its rejection is only logged), the flag is
set (line 579) and a clear is scheduled for `t + 10000` (lines 582-584). -/
def playKonamiAudio (s : KState) (t : Nat) : KState × Bool :=
  if s.hasPlayedThisSession then (s, false)
  else if s.audio then
    ({ s with hasPlayedThisSession := true, pendingClear := some (t + 10000) }, true)
  else (s, false)

/-- `handleKeyboardInput` (lines 513-536) at time `t`.  Result components:
the new state, whether the full sequence completed on this key (the MATCH
event: the branch of lines 523-526 that calls `playKonamiAudio` and
`resetSequence`), and whether `audio.play()` was invoked. -/
def handleKeyboardInput (s : KState) (keyCode : String) (t : Nat) :
    KState × Bool × Bool :=
  if s.hasPlayedThisSession then (s, false, false)
  else
    if some keyCode = sequence.get? s.currentSequence.length ∨
       some keyCode = wasdSequence.get? s.currentSequence.length then
      let s1 : KState := { s with currentSequence := s.currentSequence ++ [keyCode] }
      if s1.currentSequence.length = sequence.length then
        let r := playKonamiAudio s1 t
        ({ r.1 with currentSequence := [] }, true, r.2)
      else (s1, false, false)
    else
      if some keyCode = sequence.get? 0 ∨ some keyCode = wasdSequence.get? 0 then
        ({ s with currentSequence := [keyCode] }, false, false)
      else ({ s with currentSequence := [] }, false, false)

/-- `handleControllerInput` (lines 542-565) at time `t`; same result shape
as `handleKeyboardInput`.  Note that it reads and writes the same
`currentSequence` field the keyboard handler uses. -/
def handleControllerInput (s : KState) (input : String) (t : Nat) :
    KState × Bool × Bool :=
  if s.hasPlayedThisSession then (s, false, false)
  else
    if some input = controllerSequence.get? s.currentSequence.length then
      let s1 : KState := { s with currentSequence := s.currentSequence ++ [input] }
      if s1.currentSequence.length = controllerSequence.length then
        let r := playKonamiAudio s1 t
        ({ r.1 with currentSequence := [] }, true, r.2)
      else (s1, false, false)
    else
      if some input = controllerSequence.get? 0 then
        ({ s with currentSequence := [input] }, false, false)
      else ({ s with currentSequence := [] }, false, false)

/-- Fire the pending `setTimeout` callback of lines 582-584 if its deadline
has been reached by time `t`: the callback sets `hasPlayedThisSession` back
to `false`; the timer is then gone. -/
def fireTimers (s : KState) (t : Nat) : KState :=
  match s.pendingClear with
  | some d =>
      if d ≤ t then { s with hasPlayedThisSession := false, pendingClear := none }
      else s
  | none => s

/-- A `keydown` event carrying `keyCode` arriving at wall-clock time `t`:
any due timer callback runs first (JS event-loop order), then the handler. -/
def keyEventAt (s : KState) (t : Nat) (k : String) : KState × Bool × Bool :=
  handleKeyboardInput (fireTimers s t) k t

/-- A controller press `b` delivered at wall-clock time `t`. -/
def padEventAt (s : KState) (t : Nat) (b : String) : KState × Bool × Bool :=
  handleControllerInput (fireTimers s t) b t

/-- Feed a list of key codes through `handleKeyboardInput` (all at time 0,
i.e. with no pending timer becoming due), returning the final state, the
number of MATCH events and the number of `play()` invocations. -/
def runKeyboard (s : KState) (ks : List String) : KState × Nat × Nat :=
  match ks with
  | [] => (s, 0, 0)
  | k :: rest =>
      let r := handleKeyboardInput s k 0
      let rr := runKeyboard r.1 rest
      (rr.1, (if r.2.1 then 1 else 0) + rr.2.1, (if r.2.2 then 1 else 0) + rr.2.2)

/-- Feed timed `keydown` events (time, key code) through `keyEventAt`,
counting MATCH events and `play()` invocations. -/
def runKeyboardAt (s : KState) (evs : List (Nat × String)) : KState × Nat × Nat :=
  match evs with
  | [] => (s, 0, 0)
  | e :: rest =>
      let r := keyEventAt s e.1 e.2
      let rr := runKeyboardAt r.1 rest
      (rr.1, (if r.2.1 then 1 else 0) + rr.2.1, (if r.2.2 then 1 else 0) + rr.2.2)

/-- Feed the whole 10-key arrow rendering of the pattern, every key arriving
at wall-clock time `t` (back-to-back entry). -/
def feedPatternAt (s : KState) (t : Nat) : KState × Nat × Nat :=
  runKeyboardAt s (sequence.map (fun k => (t, k)))

/-- A keyboard rendering of the pattern positions `i, i+1, ...`: for each
position one freely chooses the arrow code (`true`) or the WASD code
(`false`). -/
def renderCodes : Nat → List Bool → List String
  | _, [] => []
  | i, c :: cs =>
      (if c then sequence.getD i "" else wasdSequence.getD i "") :: renderCodes (i + 1) cs

/-! ### Gamepad connection tracking and polling (lines 416-507) -/

/-- The gamepad-related fields of `KonamiCode`: `gamepadIndex` (line 369,
`-1` means no tracked controller), whether the `setInterval` handle
`gamepadPolling` is live (lines 453-457; `null`/absent is `false`), and the
`previousButtonStates` dictionary (line 370), modelled as an association
list from button name to the last sampled level. -/
structure GamepadState where
  gamepadIndex : Int
  gamepadPolling : Bool
  previousButtonStates : List (String × Bool)
  deriving DecidableEq, Repr

/-- Gamepad state right after the constructor (lines 369-370). -/
def initGamepad : GamepadState :=
  { gamepadIndex := -1, gamepadPolling := false, previousButtonStates := [] }

/-- `startGamepadPolling` (lines 452-458): if the interval handle already
exists, return; otherwise create it. -/
def startGamepadPolling (s : GamepadState) : GamepadState :=
  if s.gamepadPolling then s else { s with gamepadPolling := true }

/-- The `gamepadconnected` listener (lines 418-422): record the event's
index and start polling. -/
def onGamepadConnected (s : GamepadState) (i : Nat) : GamepadState :=
  startGamepadPolling { s with gamepadIndex := (i : Int) }

/-- The `gamepaddisconnected` listener (lines 424-429): clear the tracked
index when the event's index matches it. -/
def onGamepadDisconnected (s : GamepadState) (i : Nat) : GamepadState :=
  if s.gamepadIndex = (i : Int) then { s with gamepadIndex := -1 } else s

/-- `checkExistingGamepads` (lines 438-447): scan `navigator.getGamepads()`
(here: a presence vector indexed by slot) and adopt the first present
controller, starting polling; the loop `break`s at the first hit. -/
def checkExistingGamepads (s : GamepadState) (pads : List Bool) : GamepadState :=
  match pads.findIdx? (fun b => b) with
  | some i => startGamepadPolling { s with gamepadIndex := (i : Int) }
  | none => s

/-- The six button levels sampled from the controller on one poll tick
(lines 475-482: D-pad indices 12-15 and face buttons 0-1). -/
structure PadButtons where
  dpadUp : Bool
  dpadDown : Bool
  dpadLeft : Bool
  dpadRight : Bool
  aButton : Bool
  bButton : Bool
  deriving DecidableEq, Repr

/-- `checkButtonPress` (lines 498-507) on the `previousButtonStates`
dictionary: `wasPressed` is the stored level defaulted to `false`
(line 499), an event fires only on `isPressed && !wasPressed` (line 502,
where firing calls `handleControllerInput`), and the stored level is
overwritten unconditionally (line 506). -/
def checkButtonPress (prev : List (String × Bool)) (button : String)
    (isPressed : Bool) : List (String × Bool) × Bool :=
  let wasPressed := (prev.lookup button).getD false
  ((button, isPressed) :: prev.filter (fun p => p.1 ≠ button),
   isPressed && !wasPressed)

/-- One tick of `pollGamepad` (lines 463-491).  `snapshot` is
`navigator.getGamepads()[this.gamepadIndex]`: `none` when no controller is
at the tracked slot.  With no tracked index the tick returns at line 464;
with a missing controller it clears the index and the interval (lines
467-472); otherwise it runs `checkButtonPress` for the six buttons in
source order, and the second component lists the button names that fired
(each firing a `handleControllerInput` call). -/
def pollGamepad (s : GamepadState) (snapshot : Option PadButtons) :
    GamepadState × List String :=
  if s.gamepadIndex = -1 then (s, [])
  else
    match snapshot with
    | none => ({ s with gamepadIndex := -1, gamepadPolling := false }, [])
    | some pad =>
        let r1 := checkButtonPress s.previousButtonStates "up" pad.dpadUp
        let r2 := checkButtonPress r1.1 "down" pad.dpadDown
        let r3 := checkButtonPress r2.1 "left" pad.dpadLeft
        let r4 := checkButtonPress r3.1 "right" pad.dpadRight
        let r5 := checkButtonPress r4.1 "a" pad.aButton
        let r6 := checkButtonPress r5.1 "b" pad.bButton
        ({ s with previousButtonStates := r6.1 },
         (if r1.2 then ["up"] else []) ++ (if r2.2 then ["down"] else []) ++
         (if r3.2 then ["left"] else []) ++ (if r4.2 then ["right"] else []) ++
         (if r5.2 then ["a"] else []) ++ (if r6.2 then ["b"] else []))

/-- Repeatedly sample one button (name `button`) through `checkButtonPress`
with the given sequence of levels, one per poll tick, counting the press
events emitted for it. -/
def runButton (prev : List (String × Bool)) (button : String)
    (levels : List Bool) : List (String × Bool) × Nat :=
  match levels with
  | [] => (prev, 0)
  | l :: rest =>
      let r := checkButtonPress prev button l
      let rr := runButton r.1 button rest
      (rr.1, (if r.2 then 1 else 0) + rr.2)

/-! ### Helper lemmas about the keyboard matcher -/

lemma sequence_length : sequence.length = 10 := rfl

/-- A non-final correct key (the accepting branch of lines 520-522 without
reaching line 523's completion test) just appends to the buffer. -/
lemma handleKeyboardInput_step (s : KState) (k : String) (t : Nat)
    (hp : s.hasPlayedThisSession = false)
    (hk : some k = sequence.get? s.currentSequence.length ∨
          some k = wasdSequence.get? s.currentSequence.length)
    (hlen : s.currentSequence.length + 1 ≠ 10) :
    handleKeyboardInput s k t =
      ({ s with currentSequence := s.currentSequence ++ [k] }, false, false) := by
  unfold handleKeyboardInput
  rw [hp]
  simp only [Bool.false_eq_true, if_false, if_pos hk]
  rw [if_neg]
  simp only [List.length_append, List.length_singleton, sequence_length]
  exact hlen

/-- The 10th correct key (lines 523-526): MATCH fires, `playKonamiAudio`
runs with the flag still down and the audio object present, the buffer is
reset. -/
lemma handleKeyboardInput_last (s : KState) (k : String) (t : Nat)
    (hp : s.hasPlayedThisSession = false)
    (ha : s.audio = true)
    (hk : some k = sequence.get? s.currentSequence.length ∨
          some k = wasdSequence.get? s.currentSequence.length)
    (hlen : s.currentSequence.length = 9) :
    handleKeyboardInput s k t =
      ({ s with currentSequence := [], hasPlayedThisSession := true,
                pendingClear := some (t + 10000) }, true, true) := by
  unfold handleKeyboardInput
  rw [hp]
  simp only [Bool.false_eq_true, if_false, if_pos hk]
  rw [if_pos]
  · simp [playKonamiAudio, ha]
  · simp only [List.length_append, List.length_singleton, sequence_length, hlen]

/-- Unfolding equation for `runKeyboard` on a cons cell, with the lets
flattened. -/
lemma runKeyboard_cons (s : KState) (k : String) (ks : List String) :
    runKeyboard s (k :: ks) =
      ((runKeyboard (handleKeyboardInput s k 0).1 ks).1,
       (if (handleKeyboardInput s k 0).2.1 then 1 else 0) +
         (runKeyboard (handleKeyboardInput s k 0).1 ks).2.1,
       (if (handleKeyboardInput s k 0).2.2 then 1 else 0) +
         (runKeyboard (handleKeyboardInput s k 0).1 ks).2.2) := rfl

/-- At every pattern position the rendered code (arrow or WASD choice) is
accepted by the comparison of line 520. -/
lemma renderCodes_head_valid :
    ∀ i, i < 10 → ∀ c : Bool,
      some (if c then sequence.getD i "" else wasdSequence.getD i "") =
          sequence.get? i ∨
      some (if c then sequence.getD i "" else wasdSequence.getD i "") =
          wasdSequence.get? i := by
  decide

/-- Core induction for the prefix-exactness property: starting from a state
whose buffer has length `i` (flag down, audio loaded), feeding a rendering
of positions `i..i+|cs|-1` of the pattern leaves the buffer at length
`i+|cs|` with no MATCH if that is short of 10, and produces exactly one
MATCH and an empty buffer if it reaches 10. -/
lemma runKeyboard_renderCodes (cs : List Bool) :
    ∀ (i : Nat) (s : KState),
      s.hasPlayedThisSession = false → s.audio = true →
      s.currentSequence.length = i → i + cs.length ≤ 10 → i ≤ 9 →
      ((i + cs.length < 10 →
          (runKeyboard s (renderCodes i cs)).1.currentSequence.length = i + cs.length ∧
          (runKeyboard s (renderCodes i cs)).1.hasPlayedThisSession = false ∧
          (runKeyboard s (renderCodes i cs)).2.1 = 0) ∧
       (i + cs.length = 10 →
          (runKeyboard s (renderCodes i cs)).1.currentSequence.length = 0 ∧
          (runKeyboard s (renderCodes i cs)).2.1 = 1)) := by
  induction cs with
  | nil =>
      intro i s hp ha hl hb hi
      refine ⟨fun h => ⟨?_, ?_, ?_⟩,
              fun h => False.elim (by simp only [List.length_nil] at h; omega)⟩ <;>
        simp [runKeyboard, renderCodes, hl, hp]
  | cons c cs ih =>
      intro i s hp ha hl hb hi
      have hi10 : i < 10 := by omega
      have hk0 := renderCodes_head_valid i hi10 c
      rw [renderCodes]
      generalize hKey :
        (if c then sequence.getD i "" else wasdSequence.getD i "") = K
      rw [hKey] at hk0
      rw [← hl] at hk0
      rw [runKeyboard_cons]
      by_cases hfin : i + 1 = 10
      · -- final position: i = 9, and the rendering has no further symbols
        have hcs : cs = [] := by
          simp only [List.length_cons] at hb
          have : cs.length = 0 := by omega
          exact List.eq_nil_of_length_eq_zero this
        subst hcs
        have h9 : s.currentSequence.length = 9 := by omega
        rw [handleKeyboardInput_last s K 0 hp ha hk0 h9]
        refine ⟨fun h =>
          False.elim (by simp only [List.length_cons, List.length_nil] at h; omega),
          fun h => ?_⟩
        simp [runKeyboard, renderCodes]
      · -- middle position: append and recurse
        have hne : s.currentSequence.length + 1 ≠ 10 := by omega
        rw [handleKeyboardInput_step s K 0 hp hk0 hne]
        have hl1 : ({ s with currentSequence := s.currentSequence ++ [K] } :
            KState).currentSequence.length = i + 1 := by
          simp [hl]
        have hp1 : ({ s with currentSequence := s.currentSequence ++ [K] } :
            KState).hasPlayedThisSession = false := hp
        have ha1 : ({ s with currentSequence := s.currentSequence ++ [K] } :
            KState).audio = true := ha
        have hb1 : (i + 1) + cs.length ≤ 10 := by
          simp only [List.length_cons] at hb; omega
        have hi1 : i + 1 ≤ 9 := by omega
        have h3 := ih (i + 1)
          ({ s with currentSequence := s.currentSequence ++ [K] } : KState)
          hp1 ha1 hl1 hb1 hi1
        simp only [List.length_cons]
        refine ⟨fun h => ?_, fun h => ?_⟩
        · have hlt : (i + 1) + cs.length < 10 := by omega
          have h4 := h3.1 hlt
          refine ⟨by rw [h4.1]; omega, h4.2.1, by simp [h4.2.2]⟩
        · have heq : (i + 1) + cs.length = 10 := by omega
          have h4 := h3.2 heq
          exact ⟨h4.1, by simp [h4.2]⟩

/-! ### Claims about the matcher and the playback gate -/

/-- C1 counterexample.  The two input channels are NOT independent state
machines: both handlers read and write the single `currentSequence` field.
Concretely, after the keyboard advances the buffer to length 1 with
`ArrowUp`, a controller `up` press advances that same buffer to length 2,
and a controller `left` press resets it to length 0 — a controller press
both advances and resets the prefix the keyboard channel had built, at an
explicit concrete input. -/
theorem channels_share_state_cex :
    (handleKeyboardInput (initKonami true) "ArrowUp" 0).1.currentSequence.length = 1 ∧
    (handleControllerInput (handleKeyboardInput (initKonami true) "ArrowUp" 0).1
        "up" 0).1.currentSequence.length = 2 ∧
    (handleControllerInput (handleKeyboardInput (initKonami true) "ArrowUp" 0).1
        "left" 0).1.currentSequence.length = 0 := by decide

/-- C1 amended: keyboard and controller are matched by ONE shared
sequence-matcher state (`currentSequence`): from any unsuppressed state
whose shared buffer holds one accepted symbol — however it was produced — a
controller `up` press advances the buffer and a controller `left` press
resets it, and likewise for keyboard presses. -/
theorem channels_share_state (s : KState) (t : Nat)
    (hp : s.hasPlayedThisSession = false)
    (hl : s.currentSequence.length = 1) :
    (handleControllerInput s "up" t).1.currentSequence.length = 2 ∧
    (handleControllerInput s "left" t).1.currentSequence.length = 0 ∧
    (handleKeyboardInput s "ArrowUp" t).1.currentSequence.length = 2 ∧
    (handleKeyboardInput s "ArrowLeft" t).1.currentSequence.length = 0 := by
  unfold handleControllerInput handleKeyboardInput
  rw [hp]
  simp [hl, controllerSequence, sequence, wasdSequence]

/-- Witness for `channels_share_state`, at the state reached by feeding the
keyboard symbol `ArrowUp` from the fresh detector. -/
theorem channels_share_state_witness :
    (handleControllerInput (handleKeyboardInput (initKonami true) "ArrowUp" 0).1
        "up" 0).1.currentSequence.length = 2 ∧
    (handleControllerInput (handleKeyboardInput (initKonami true) "ArrowUp" 0).1
        "left" 0).1.currentSequence.length = 0 ∧
    (handleKeyboardInput (handleKeyboardInput (initKonami true) "ArrowUp" 0).1
        "ArrowUp" 0).1.currentSequence.length = 2 ∧
    (handleKeyboardInput (handleKeyboardInput (initKonami true) "ArrowUp" 0).1
        "ArrowLeft" 0).1.currentSequence.length = 0 :=
  channels_share_state (handleKeyboardInput (initKonami true) "ArrowUp" 0).1 0
    (by decide) (by decide)

/-- C2: from the fresh state (suppression off), feeding any rendering of a
pattern position-by-position — each position as its arrow code (`true`) or
its WASD code (`false`), interchangeably — leaves the buffer length equal
to the number of symbols fed and fires no MATCH while short of 10; a full
10-symbol rendering fires exactly one MATCH and leaves the buffer reset to
empty. -/
theorem keyboard_exact_match (cs : List Bool) (h : cs.length ≤ 10) :
    (cs.length < 10 →
        (runKeyboard (initKonami true) (renderCodes 0 cs)).1.currentSequence.length =
          cs.length ∧
        (runKeyboard (initKonami true) (renderCodes 0 cs)).2.1 = 0) ∧
    (cs.length = 10 →
        (runKeyboard (initKonami true) (renderCodes 0 cs)).2.1 = 1 ∧
        (runKeyboard (initKonami true) (renderCodes 0 cs)).1.currentSequence.length =
          0) := by
  have h0 := runKeyboard_renderCodes cs 0 (initKonami true) rfl rfl rfl
    (by omega) (by omega)
  constructor
  · intro hlt
    have h1 := h0.1 (by omega)
    exact ⟨by have := h1.1; omega, h1.2.2⟩
  · intro heq
    have h1 := h0.2 (by omega)
    exact ⟨h1.2, h1.1⟩

/-- Witness for `keyboard_exact_match` on a mixed arrow/WASD rendering of
the full pattern. -/
theorem keyboard_exact_match_witness :
    List.length [true, false, true, true, false, true, true, true, false, true] = 10 ∧
    (runKeyboard (initKonami true)
        (renderCodes 0 [true, false, true, true, false, true, true, true, false, true])).2.1 = 1 ∧
    (runKeyboard (initKonami true)
        (renderCodes 0 [true, false, true, true, false, true, true, true, false,
          true])).1.currentSequence.length = 0 :=
  ⟨by decide,
   (keyboard_exact_match [true, false, true, true, false, true, true, true, false, true]
      (by decide)).2 (by decide)⟩

/-- C3 counterexample.  While the suppression window is active the handlers
return at their first line (513/542), so incoming symbols do NOT update the
match bookkeeping: from the state right after a match (flag up, clear
pending at 10000), feeding the full arrow pattern again at time 5000 leaves
the state untouched, detects no second MATCH internally, and the buffer
does not cycle (it stays at length 0 even after the first symbol). -/
theorem suppression_ignores_input_cex :
    (feedPatternAt (initKonami true) 0).1.hasPlayedThisSession = true ∧
    (runKeyboardAt (feedPatternAt (initKonami true) 0).1
        (sequence.map fun k => (5000, k))).2.1 = 0 ∧
    (keyEventAt (feedPatternAt (initKonami true) 0).1 5000 "ArrowUp").1 =
      (feedPatternAt (initKonami true) 0).1 := by decide

/-- C3 amended: while the suppression flag is set and its pending clear has
not yet fired at the event's time, every keyboard or controller symbol is
ignored entirely — no bookkeeping update, no internal MATCH, no playback. -/
theorem suppression_ignores_input (s : KState) (t : Nat) (k b : String)
    (hp : s.hasPlayedThisSession = true)
    (hq : fireTimers s t = s) :
    keyEventAt s t k = (s, false, false) ∧
    padEventAt s t b = (s, false, false) := by
  unfold keyEventAt padEventAt
  rw [hq]
  unfold handleKeyboardInput handleControllerInput
  rw [hp]
  simp

/-- Witness for `suppression_ignores_input` at the concrete post-match
state, 5000 ms into the 10000 ms window. -/
theorem suppression_ignores_input_witness :
    keyEventAt (feedPatternAt (initKonami true) 0).1 5000 "ArrowDown" =
      ((feedPatternAt (initKonami true) 0).1, false, false) ∧
    padEventAt (feedPatternAt (initKonami true) 0).1 5000 "down" =
      ((feedPatternAt (initKonami true) 0).1, false, false) :=
  suppression_ignores_input (feedPatternAt (initKonami true) 0).1 5000
    "ArrowDown" "down" (by decide) (by decide)

/-- C5: on a mismatching key the handler resets the buffer and then, iff
the mismatching key is the first symbol of either keyboard alphabet
(`sequence[0] = ArrowUp` or `wasdSequence[0] = KeyW`, the two codes of the
logical UP), re-seeds the buffer to length 1; no MATCH fires on a mismatch.
The three concrete scenarios of the claim: UP then LEFT ends at 0, UP then
DOWN ends at 0, and UP, UP, UP (third UP mismatching the expected DOWN)
ends at 1. -/
theorem mismatch_restart (s : KState) (k : String) (t : Nat)
    (hp : s.hasPlayedThisSession = false)
    (hm : ¬(some k = sequence.get? s.currentSequence.length ∨
            some k = wasdSequence.get? s.currentSequence.length)) :
    ((handleKeyboardInput s k t).1.currentSequence.length =
       if some k = sequence.get? 0 ∨ some k = wasdSequence.get? 0 then 1 else 0) ∧
    (handleKeyboardInput s k t).2.1 = false ∧
    (runKeyboard (initKonami true)
        ["ArrowUp", "ArrowLeft"]).1.currentSequence.length = 0 ∧
    (runKeyboard (initKonami true)
        ["ArrowUp", "ArrowDown"]).1.currentSequence.length = 0 ∧
    (runKeyboard (initKonami true)
        ["ArrowUp", "ArrowUp", "ArrowUp"]).1.currentSequence.length = 1 := by
  refine ⟨?_, ?_, by decide, by decide, by decide⟩ <;>
    · unfold handleKeyboardInput
      rw [hp]
      simp only [Bool.false_eq_true, if_false, if_neg hm]
      split <;> rename_i hst <;> simp [hst]

/-- Witness for `mismatch_restart`: the state after one accepted `ArrowUp`,
hit with the mismatching key `ArrowLeft`. -/
theorem mismatch_restart_witness :
    ((handleKeyboardInput (runKeyboard (initKonami true) ["ArrowUp"]).1
        "ArrowLeft" 0).1.currentSequence.length =
      if some "ArrowLeft" = sequence.get? 0 ∨ some "ArrowLeft" = wasdSequence.get? 0
      then 1 else 0) ∧
    (handleKeyboardInput (runKeyboard (initKonami true) ["ArrowUp"]).1
        "ArrowLeft" 0).2.1 = false ∧
    (runKeyboard (initKonami true)
        ["ArrowUp", "ArrowLeft"]).1.currentSequence.length = 0 ∧
    (runKeyboard (initKonami true)
        ["ArrowUp", "ArrowDown"]).1.currentSequence.length = 0 ∧
    (runKeyboard (initKonami true)
        ["ArrowUp", "ArrowUp", "ArrowUp"]).1.currentSequence.length = 1 :=
  mismatch_restart (runKeyboard (initKonami true) ["ArrowUp"]).1 "ArrowLeft" 0
    (by decide) (by decide)

/-- C6 counterexample.  When the `Audio` object failed to initialize
(`this.audio` is null), a completed match does NOT proceed with the
suppression bookkeeping: `playKonamiAudio`'s `if (this.audio)` guard (line
574) skips the flag assignment and the `setTimeout`, so after feeding the
full pattern the flag is still down and no clear is scheduled — contrary to
the claim that the flag is set and cleared as if playback had been
requested. -/
theorem playback_init_failure_cex :
    (runKeyboard (initKonami false) sequence).2.1 = 1 ∧
    (runKeyboard (initKonami false) sequence).2.2 = 0 ∧
    (runKeyboard (initKonami false) sequence).1.hasPlayedThisSession = false ∧
    (runKeyboard (initKonami false) sequence).1.pendingClear = none := by decide

/-- C6 amended: no playback failure propagates (both handlers and
`playKonamiAudio` are total, failures being caught and logged).  If the
`Audio` object exists, a match requests playback, sets the flag and
schedules the clear for 10000 ms later, and the flag is down once that
deadline fires — independent of the `play()` promise's outcome, which the
code only logs and never reads back.  If instead the `Audio` object failed
to initialize, the match still completes and resets the buffer without
error, but the flag is never set and no clear is scheduled. -/
theorem playback_failure_semantics :
    (feedPatternAt (initKonami true) 0).2.2 = 1 ∧
    (feedPatternAt (initKonami true) 0).1.hasPlayedThisSession = true ∧
    (feedPatternAt (initKonami true) 0).1.pendingClear = some 10000 ∧
    (fireTimers (feedPatternAt (initKonami true) 0).1 10000).hasPlayedThisSession =
      false ∧
    (runKeyboard (initKonami false) sequence).2.1 = 1 ∧
    (runKeyboard (initKonami false) sequence).2.2 = 0 ∧
    (runKeyboard (initKonami false) sequence).1.hasPlayedThisSession = false ∧
    (runKeyboard (initKonami false) sequence).1.pendingClear = none ∧
    (runKeyboard (initKonami false) sequence).1.currentSequence.length = 0 := by
  decide

/-! ### The 10-second suppression window (C4) -/

/-- Unfolding equation for `runKeyboardAt` on a cons cell with an explicit
(time, key) pair, lets flattened. -/
lemma runKeyboardAt_cons (s : KState) (tk : Nat) (k : String)
    (evs : List (Nat × String)) :
    runKeyboardAt s ((tk, k) :: evs) =
      ((runKeyboardAt (keyEventAt s tk k).1 evs).1,
       (if (keyEventAt s tk k).2.1 then 1 else 0) +
         (runKeyboardAt (keyEventAt s tk k).1 evs).2.1,
       (if (keyEventAt s tk k).2.2 then 1 else 0) +
         (runKeyboardAt (keyEventAt s tk k).1 evs).2.2) := rfl

/-- While the flag is up and no due timer fires at any of the event times,
a run of keyboard events is a complete no-op. -/
lemma runKeyboardAt_suppressed (evs : List (Nat × String)) :
    ∀ s : KState, s.hasPlayedThisSession = true →
      (∀ e ∈ evs, fireTimers s e.1 = s) →
      runKeyboardAt s evs = (s, 0, 0) := by
  induction evs with
  | nil => intro s hp hf; rfl
  | cons e evs ih =>
      intro s hp hf
      obtain ⟨tk, k⟩ := e
      rw [runKeyboardAt_cons]
      have h1 : keyEventAt s tk k = (s, false, false) := by
        unfold keyEventAt
        rw [hf (tk, k) (by simp)]
        unfold handleKeyboardInput
        rw [hp]
        simp
      rw [h1]
      have h2 := ih s hp (fun x hx => hf x (List.mem_cons_of_mem _ hx))
      simp [h2]

/-- Feeding the full arrow pattern at time `t` from a suppressed state
whose pending clear is still in the future is a complete no-op: the state
(deadline included) is unchanged, no MATCH, no play. -/
lemma feedPatternAt_suppressed (s : KState) (t : Nat)
    (hp : s.hasPlayedThisSession = true) (hq : fireTimers s t = s) :
    feedPatternAt s t = (s, 0, 0) := by
  unfold feedPatternAt
  refine runKeyboardAt_suppressed _ s hp ?_
  intro e he
  simp only [List.mem_map] at he
  obtain ⟨k, hk, he2⟩ := he
  rw [← he2]
  exact hq

/-- With no pending timer, a timed event is just the raw handler call. -/
lemma keyEventAt_none (s : KState) (t : Nat) (k : String)
    (h : s.pendingClear = none) :
    keyEventAt s t k = handleKeyboardInput s k t := by
  unfold keyEventAt fireTimers
  rw [h]

/-- Packaging of `handleKeyboardInput_step` with the successor state given
explicitly. -/
lemma kb_step_eq (s s2 : KState) (k : String) (t : Nat)
    (hp : s.hasPlayedThisSession = false)
    (hk : some k = sequence.get? s.currentSequence.length ∨
          some k = wasdSequence.get? s.currentSequence.length)
    (hlen : s.currentSequence.length + 1 ≠ 10)
    (h2 : ({ s with currentSequence := s.currentSequence ++ [k] } : KState) = s2) :
    handleKeyboardInput s k t = (s2, false, false) := by
  rw [handleKeyboardInput_step s k t hp hk hlen, h2]

/-- A timed event that neither matches nor plays chains through
`runKeyboardAt` without touching the counters. -/
lemma runKeyboardAt_step (s s2 : KState) (tk : Nat) (k : String)
    (evs : List (Nat × String))
    (h : keyEventAt s tk k = (s2, false, false)) :
    runKeyboardAt s ((tk, k) :: evs) = runKeyboardAt s2 evs := by
  rw [runKeyboardAt_cons, h]
  simp

/-- A final timed event that matches and plays closes the run with both
counters at one. -/
lemma runKeyboardAt_final (s s2 : KState) (tk : Nat) (k : String)
    (h : keyEventAt s tk k = (s2, true, true)) :
    runKeyboardAt s [(tk, k)] = (s2, 1, 1) := by
  rw [runKeyboardAt_cons, h]
  simp [runKeyboardAt]

/-- Feeding the full arrow pattern, all ten keys at time `t`, from any
state whose due-timer processing at `t` yields the fresh loaded state:
exactly one MATCH, exactly one `play()`, the flag is set and the clear is
scheduled for `t + 10000`. -/
lemma feedPatternAt_of_clean (s0 : KState) (t : Nat)
    (hq : fireTimers s0 t = initKonami true) :
    feedPatternAt s0 t =
      ({ currentSequence := [], hasPlayedThisSession := true, audio := true,
         pendingClear := some (t + 10000) }, 1, 1) := by
  have e1 : keyEventAt s0 t "ArrowUp" =
      ({ currentSequence := ["ArrowUp"], hasPlayedThisSession := false,
         audio := true, pendingClear := none }, false, false) := by
    unfold keyEventAt
    rw [hq]
    exact kb_step_eq _ _ _ _ rfl (by decide) (by decide) rfl
  have e2 : keyEventAt
      { currentSequence := ["ArrowUp"], hasPlayedThisSession := false,
        audio := true, pendingClear := none } t "ArrowUp" =
      ({ currentSequence := ["ArrowUp", "ArrowUp"], hasPlayedThisSession := false,
         audio := true, pendingClear := none }, false, false) := by
    rw [keyEventAt_none _ _ _ rfl]
    exact kb_step_eq _ _ _ _ rfl (by decide) (by decide) rfl
  have e3 : keyEventAt
      { currentSequence := ["ArrowUp", "ArrowUp"], hasPlayedThisSession := false,
        audio := true, pendingClear := none } t "ArrowDown" =
      ({ currentSequence := ["ArrowUp", "ArrowUp", "ArrowDown"],
         hasPlayedThisSession := false, audio := true, pendingClear := none },
       false, false) := by
    rw [keyEventAt_none _ _ _ rfl]
    exact kb_step_eq _ _ _ _ rfl (by decide) (by decide) rfl
  have e4 : keyEventAt
      { currentSequence := ["ArrowUp", "ArrowUp", "ArrowDown"],
        hasPlayedThisSession := false, audio := true, pendingClear := none }
      t "ArrowDown" =
      ({ currentSequence := ["ArrowUp", "ArrowUp", "ArrowDown", "ArrowDown"],
         hasPlayedThisSession := false, audio := true, pendingClear := none },
       false, false) := by
    rw [keyEventAt_none _ _ _ rfl]
    exact kb_step_eq _ _ _ _ rfl (by decide) (by decide) rfl
  have e5 : keyEventAt
      { currentSequence := ["ArrowUp", "ArrowUp", "ArrowDown", "ArrowDown"],
        hasPlayedThisSession := false, audio := true, pendingClear := none }
      t "ArrowLeft" =
      ({ currentSequence :=
           ["ArrowUp", "ArrowUp", "ArrowDown", "ArrowDown", "ArrowLeft"],
         hasPlayedThisSession := false, audio := true, pendingClear := none },
       false, false) := by
    rw [keyEventAt_none _ _ _ rfl]
    exact kb_step_eq _ _ _ _ rfl (by decide) (by decide) rfl
  have e6 : keyEventAt
      { currentSequence :=
          ["ArrowUp", "ArrowUp", "ArrowDown", "ArrowDown", "ArrowLeft"],
        hasPlayedThisSession := false, audio := true, pendingClear := none }
      t "ArrowRight" =
      ({ currentSequence :=
           ["ArrowUp", "ArrowUp", "ArrowDown", "ArrowDown", "ArrowLeft",
            "ArrowRight"],
         hasPlayedThisSession := false, audio := true, pendingClear := none },
       false, false) := by
    rw [keyEventAt_none _ _ _ rfl]
    exact kb_step_eq _ _ _ _ rfl (by decide) (by decide) rfl
  have e7 : keyEventAt
      { currentSequence :=
          ["ArrowUp", "ArrowUp", "ArrowDown", "ArrowDown", "ArrowLeft",
           "ArrowRight"],
        hasPlayedThisSession := false, audio := true, pendingClear := none }
      t "ArrowLeft" =
      ({ currentSequence :=
           ["ArrowUp", "ArrowUp", "ArrowDown", "ArrowDown", "ArrowLeft",
            "ArrowRight", "ArrowLeft"],
         hasPlayedThisSession := false, audio := true, pendingClear := none },
       false, false) := by
    rw [keyEventAt_none _ _ _ rfl]
    exact kb_step_eq _ _ _ _ rfl (by decide) (by decide) rfl
  have e8 : keyEventAt
      { currentSequence :=
          ["ArrowUp", "ArrowUp", "ArrowDown", "ArrowDown", "ArrowLeft",
           "ArrowRight", "ArrowLeft"],
        hasPlayedThisSession := false, audio := true, pendingClear := none }
      t "ArrowRight" =
      ({ currentSequence :=
           ["ArrowUp", "ArrowUp", "ArrowDown", "ArrowDown", "ArrowLeft",
            "ArrowRight", "ArrowLeft", "ArrowRight"],
         hasPlayedThisSession := false, audio := true, pendingClear := none },
       false, false) := by
    rw [keyEventAt_none _ _ _ rfl]
    exact kb_step_eq _ _ _ _ rfl (by decide) (by decide) rfl
  have e9 : keyEventAt
      { currentSequence :=
          ["ArrowUp", "ArrowUp", "ArrowDown", "ArrowDown", "ArrowLeft",
           "ArrowRight", "ArrowLeft", "ArrowRight"],
        hasPlayedThisSession := false, audio := true, pendingClear := none }
      t "KeyB" =
      ({ currentSequence :=
           ["ArrowUp", "ArrowUp", "ArrowDown", "ArrowDown", "ArrowLeft",
            "ArrowRight", "ArrowLeft", "ArrowRight", "KeyB"],
         hasPlayedThisSession := false, audio := true, pendingClear := none },
       false, false) := by
    rw [keyEventAt_none _ _ _ rfl]
    exact kb_step_eq _ _ _ _ rfl (by decide) (by decide) rfl
  have e10 : keyEventAt
      { currentSequence :=
          ["ArrowUp", "ArrowUp", "ArrowDown", "ArrowDown", "ArrowLeft",
           "ArrowRight", "ArrowLeft", "ArrowRight", "KeyB"],
        hasPlayedThisSession := false, audio := true, pendingClear := none }
      t "KeyA" =
      ({ currentSequence := [], hasPlayedThisSession := true, audio := true,
         pendingClear := some (t + 10000) }, true, true) := by
    rw [keyEventAt_none _ _ _ rfl]
    rw [handleKeyboardInput_last _ _ _ rfl rfl (by decide) (by decide)]
  show runKeyboardAt s0
      [(t, "ArrowUp"), (t, "ArrowUp"), (t, "ArrowDown"), (t, "ArrowDown"),
       (t, "ArrowLeft"), (t, "ArrowRight"), (t, "ArrowLeft"), (t, "ArrowRight"),
       (t, "KeyB"), (t, "KeyA")] = _
  rw [runKeyboardAt_step _ _ _ _ _ e1, runKeyboardAt_step _ _ _ _ _ e2,
      runKeyboardAt_step _ _ _ _ _ e3, runKeyboardAt_step _ _ _ _ _ e4,
      runKeyboardAt_step _ _ _ _ _ e5, runKeyboardAt_step _ _ _ _ _ e6,
      runKeyboardAt_step _ _ _ _ _ e7, runKeyboardAt_step _ _ _ _ _ e8,
      runKeyboardAt_step _ _ _ _ _ e9]
  exact runKeyboardAt_final _ _ _ _ e10

/-- C4: the cooldown window.  Feeding the full pattern at time `t0` from
the fresh loaded detector triggers playback once, sets the suppression
flag and schedules its clear for exactly `t0 + 10000`; feeding the full
pattern again at any `t1` still inside the window triggers nothing and
leaves the state — deadline included — unchanged (no extension, no
restart); feeding it once more at any `t2` after the window has elapsed
triggers playback a second time. -/
theorem cooldown_window (t0 t1 t2 : Nat)
    (h1 : t1 < t0 + 10000) (h2 : t0 + 10000 < t2) :
    (feedPatternAt (initKonami true) t0).2.2 = 1 ∧
    (feedPatternAt (initKonami true) t0).1.hasPlayedThisSession = true ∧
    (feedPatternAt (initKonami true) t0).1.pendingClear = some (t0 + 10000) ∧
    (feedPatternAt (feedPatternAt (initKonami true) t0).1 t1).2.2 = 0 ∧
    (feedPatternAt (feedPatternAt (initKonami true) t0).1 t1).1 =
      (feedPatternAt (initKonami true) t0).1 ∧
    (feedPatternAt (feedPatternAt (feedPatternAt (initKonami true) t0).1 t1).1
        t2).2.2 = 1 := by
  have e0 := feedPatternAt_of_clean (initKonami true) t0 rfl
  have hq1 : fireTimers
      ({ currentSequence := [], hasPlayedThisSession := true, audio := true,
         pendingClear := some (t0 + 10000) } : KState) t1 =
      { currentSequence := [], hasPlayedThisSession := true, audio := true,
        pendingClear := some (t0 + 10000) } := by
    have hn : ¬ (t0 + 10000 ≤ t1) := by omega
    simp [fireTimers, hn]
  have e1 := feedPatternAt_suppressed
    ({ currentSequence := [], hasPlayedThisSession := true, audio := true,
       pendingClear := some (t0 + 10000) } : KState) t1 rfl hq1
  have hq2 : fireTimers
      ({ currentSequence := [], hasPlayedThisSession := true, audio := true,
         pendingClear := some (t0 + 10000) } : KState) t2 = initKonami true := by
    have hy : t0 + 10000 ≤ t2 := by omega
    simp [fireTimers, hy, initKonami]
  have e2 := feedPatternAt_of_clean
    ({ currentSequence := [], hasPlayedThisSession := true, audio := true,
       pendingClear := some (t0 + 10000) } : KState) t2 hq2
  rw [e0]
  refine ⟨rfl, rfl, rfl, ?_, ?_, ?_⟩
  · show (feedPatternAt _ t1).2.2 = 0
    rw [e1]
  · show (feedPatternAt _ t1).1 = _
    rw [e1]
  · show (feedPatternAt (feedPatternAt _ t1).1 t2).2.2 = 1
    rw [e1]
    show (feedPatternAt _ t2).2.2 = 1
    rw [e2]

/-- Witness for `cooldown_window` at `t0 = 0`, `t1 = 5000`, `t2 = 12000`. -/
theorem cooldown_window_witness :
    (feedPatternAt (initKonami true) 0).2.2 = 1 ∧
    (feedPatternAt (initKonami true) 0).1.hasPlayedThisSession = true ∧
    (feedPatternAt (initKonami true) 0).1.pendingClear = some (0 + 10000) ∧
    (feedPatternAt (feedPatternAt (initKonami true) 0).1 5000).2.2 = 0 ∧
    (feedPatternAt (feedPatternAt (initKonami true) 0).1 5000).1 =
      (feedPatternAt (initKonami true) 0).1 ∧
    (feedPatternAt (feedPatternAt (feedPatternAt (initKonami true) 0).1 5000).1
        12000).2.2 = 1 :=
  cooldown_window 0 5000 12000 (by omega) (by omega)

/-! ### Helper lemmas about the poller's stored levels -/

/-- Looking up a button right after `checkButtonPress` stored its level. -/
lemma lookup_insert_self (m : List (String × Bool)) (b : String) (v : Bool) :
    (checkButtonPress m b v).1.lookup b = some v := by
  simp [checkButtonPress, List.lookup]

/-- Unfolding equation for `runButton` on a cons cell, lets flattened. -/
lemma runButton_cons (prev : List (String × Bool)) (button : String)
    (l : Bool) (levels : List Bool) :
    runButton prev button (l :: levels) =
      ((runButton (checkButtonPress prev button l).1 button levels).1,
       (if (checkButtonPress prev button l).2 then 1 else 0) +
         (runButton (checkButtonPress prev button l).1 button levels).2) := rfl

/-- A button whose stored level is already `true` emits nothing over any
run of sustained-`true` ticks, and its stored level stays `true`. -/
lemma runButton_held (button : String) (n : Nat) :
    ∀ prev : List (String × Bool),
      ((prev.lookup button).getD false) = true →
      (runButton prev button (List.replicate n true)).2 = 0 ∧
      (((runButton prev button (List.replicate n true)).1.lookup button).getD
        false) = true := by
  induction n with
  | zero => intro prev h; exact ⟨rfl, h⟩
  | succ n ih =>
      intro prev h
      rw [List.replicate_succ, runButton_cons]
      have hf : (checkButtonPress prev button true).2 = false := by
        simp [checkButtonPress, h]
      have hl : (((checkButtonPress prev button true).1.lookup button).getD
          false) = true := by
        rw [lookup_insert_self]; rfl
      have h2 := ih (checkButtonPress prev button true).1 hl
      rw [hf]
      exact ⟨by rw [h2.1]; simp, h2.2⟩

/-! ### Claims about the controller poller -/

/-- C7 counterexample.  After a `gamepaddisconnected` event for the tracked
index, the tracked index is cleared, but the next poll tick returns at line
464 (`gamepadIndex === -1`) WITHOUT clearing the interval: the poll loop
does not halt itself and its timer handle stays live, contrary to the
claim. -/
theorem poll_halt_cex :
    (onGamepadDisconnected (onGamepadConnected initGamepad 0) 0).gamepadIndex = -1 ∧
    (pollGamepad (onGamepadDisconnected (onGamepadConnected initGamepad 0) 0)
        none).1.gamepadPolling = true ∧
    (pollGamepad (onGamepadDisconnected (onGamepadConnected initGamepad 0) 0)
        none).1 = onGamepadDisconnected (onGamepadConnected initGamepad 0) 0 := by
  decide

/-- C7 amended: only the polled-absence path halts the loop.  If the
tracked controller is missing from the poll snapshot while still tracked,
that tick clears the tracked index AND the timer handle (lines 467-472) and
emits nothing.  A `gamepaddisconnected` event for the tracked index clears
only the index; every subsequent poll tick — whatever the snapshot — then
returns early, leaving the state (timer handle included) untouched. -/
theorem poll_halt_paths (s : GamepadState) (i : Nat) (snap : Option PadButtons)
    (h : s.gamepadIndex = (i : Int)) :
    (pollGamepad s none).1.gamepadIndex = -1 ∧
    (pollGamepad s none).1.gamepadPolling = false ∧
    (pollGamepad s none).2 = [] ∧
    (onGamepadDisconnected s i).gamepadIndex = -1 ∧
    pollGamepad (onGamepadDisconnected s i) snap =
      (onGamepadDisconnected s i, []) := by
  have hne : ¬ (s.gamepadIndex = -1) := by rw [h]; omega
  have hd : onGamepadDisconnected s i = { s with gamepadIndex := -1 } := by
    unfold onGamepadDisconnected
    rw [if_pos h]
  refine ⟨?_, ?_, ?_, ?_, ?_⟩ <;> simp [pollGamepad, hne, hd]

/-- Witness for `poll_halt_paths`: controller 0 connected then lost. -/
theorem poll_halt_paths_witness :
    (pollGamepad (onGamepadConnected initGamepad 0) none).1.gamepadIndex = -1 ∧
    (pollGamepad (onGamepadConnected initGamepad 0) none).1.gamepadPolling = false ∧
    (pollGamepad (onGamepadConnected initGamepad 0) none).2 = [] ∧
    (onGamepadDisconnected (onGamepadConnected initGamepad 0) 0).gamepadIndex = -1 ∧
    pollGamepad (onGamepadDisconnected (onGamepadConnected initGamepad 0) 0) none =
      (onGamepadDisconnected (onGamepadConnected initGamepad 0) 0, []) :=
  poll_halt_paths (onGamepadConnected initGamepad 0) 0 none (by decide)

/-- C8 counterexample.  The `gamepadconnected` handler (lines 418-422)
overwrites `this.gamepadIndex` unconditionally: with controller 0 already
tracked, a later connection event for controller 1 is NOT ignored — the
tracked index becomes 1. -/
theorem later_connection_cex :
    (onGamepadConnected initGamepad 0).gamepadIndex = 0 ∧
    (onGamepadConnected (onGamepadConnected initGamepad 0) 1).gamepadIndex = 1 := by
  decide

/-- C8 amended: at most one controller is tracked at a time (the tracker is
the single `gamepadIndex` field), but a later `gamepadconnected` event
always replaces the tracked index — the LAST connection wins, not the
first; only the startup scan (`checkExistingGamepads`) picks the first
present slot. -/
theorem later_connection_replaces (s : GamepadState) (i : Nat) :
    (onGamepadConnected s i).gamepadIndex = (i : Int) ∧
    (onGamepadConnected s i).gamepadPolling = true ∧
    (checkExistingGamepads initGamepad [false, true, true]).gamepadIndex = 1 := by
  unfold onGamepadConnected startGamepadPolling
  refine ⟨?_, ?_, by decide⟩ <;> by_cases hb : s.gamepadPolling <;> simp [hb]

/-- C9: `checkButtonPress` emits a press event exactly on a false→true
transition of the sampled level against the stored level (defaulted to
`false`); the stored level is overwritten unconditionally on every tick; a
button held pressed across `n + 1` consecutive ticks starting from a
not-pressed record emits exactly one event, on the transition tick, and
never on sustained true or on release. -/
theorem edge_triggered (prev : List (String × Bool)) (button : String)
    (lvl : Bool) (n : Nat)
    (h : ((prev.lookup button).getD false) = false) :
    (checkButtonPress prev button lvl).2 =
      (lvl && !((prev.lookup button).getD false)) ∧
    (checkButtonPress prev button lvl).1.lookup button = some lvl ∧
    (checkButtonPress prev button true).2 = true ∧
    (checkButtonPress (checkButtonPress prev button true).1 button true).2 = false ∧
    (checkButtonPress (checkButtonPress prev button true).1 button false).2 = false ∧
    (runButton prev button (List.replicate (n + 1) true)).2 = 1 := by
  refine ⟨rfl, lookup_insert_self prev button lvl, ?_, ?_, ?_, ?_⟩
  · simp [checkButtonPress, h]
  · simp [checkButtonPress, List.lookup]
  · simp [checkButtonPress, List.lookup]
  · rw [List.replicate_succ, runButton_cons]
    have h1 : (checkButtonPress prev button true).2 = true := by
      simp [checkButtonPress, h]
    have h2 := runButton_held button n (checkButtonPress prev button true).1
      (by rw [lookup_insert_self]; rfl)
    rw [h1, h2.1]
    simp

/-- Witness for `edge_triggered` on an empty record, button `up`, held for
four ticks. -/
theorem edge_triggered_witness :
    (checkButtonPress [] "up" true).2 =
      (true && !((List.lookup "up" ([] : List (String × Bool))).getD false)) ∧
    (checkButtonPress [] "up" true).1.lookup "up" = some true ∧
    (checkButtonPress [] "up" true).2 = true ∧
    (checkButtonPress (checkButtonPress [] "up" true).1 "up" true).2 = false ∧
    (checkButtonPress (checkButtonPress [] "up" true).1 "up" false).2 = false ∧
    (runButton [] "up" (List.replicate 4 true)).2 = 1 :=
  edge_triggered [] "up" true 3 rfl

/-- C10: at the start of polling `previousButtonStates` is empty, so a
button already held down on the very first tick reads a stored level of
`false` (the `|| false` default of line 499) and fires exactly one press
event on that first tick; the whole held run still emits exactly one
event. -/
theorem first_tick_press (button : String) (n : Nat) :
    (checkButtonPress initGamepad.previousButtonStates button true).2 = true ∧
    (runButton initGamepad.previousButtonStates button
        (List.replicate (n + 1) true)).2 = 1 := by
  constructor
  · rfl
  · rw [List.replicate_succ, runButton_cons]
    have h2 := runButton_held button n
      (checkButtonPress initGamepad.previousButtonStates button true).1
      (by rw [lookup_insert_self]; rfl)
    rw [show (checkButtonPress initGamepad.previousButtonStates button true).2 =
        true from rfl, h2.1]
    simp

end Konami
